import Mathlib

/-!
Verification of the job-lifecycle coordination core of
`medusa/service/grpc/server.py` (cassandra-medusa): the job registry, the
status resolver `handle_backup_status`, the per-record summary construction of
`GetBackups`, and the four `MedusaService` request handlers.

External collaborators that are not part of the snippet (the `BackupMan`
registry module, the storage module, the purge module, the backup algorithm)
are modelled from the specification as explicit data / parameters, as noted on
each definition.
-/

set_option autoImplicit false

namespace Medusa

/-- The closed status enumeration shared by the `BackupMan` status constants
and the `medusa_pb2.BackupStatusType` protobuf enum (the handlers map the
former onto the latter name-for-name). -/
inductive StatusType where
  | IN_PROGRESS
  | SUCCESS
  | FAILED
  deriving DecidableEq, Repr

/-- A Python exception, as far as the handlers can distinguish one:
`BackupStatus` catches exactly `KeyError`, so the model separates `KeyError`
from every other exception class; the payload is the message text. -/
inductive Exn where
  | keyError (msg : String)
  | error (msg : String)
  deriving DecidableEq, Repr

/-- The message text of an exception, standing for Python `str(e)`. -/
def Exn.message : Exn → String
  | Exn.keyError m => m
  | Exn.error m => m

/-- An asynchronous handle as stored in the `BackupMan` registry.
`isAsyncioFuture` records whether `asyncio.isfuture` holds of the stored
object; it is `false` for the `concurrent.futures` futures produced by
`ThreadPoolExecutor.submit` in `MedusaService.Backup`. `done` and `cancelled`
are the observable completion flags; `outcome` is what `Future.result()`
does once the future is done: return the value, or re-raise the exception
captured from the computation. -/
structure BackupFuture where
  isAsyncioFuture : Bool
  done : Bool
  cancelled : Bool
  outcome : Except Exn Nat
  deriving Repr

/-- The Job Registry table: backup name to registered handle. -/
abbrev Registry := List (String × BackupFuture)

/-- Modelled from the spec: `BackupMan.get_backup_future` (the `BackupMan`
module is not under `src/`); section 4.1: `lookup(name) → handle | absent`, a
non-blocking read of the registry table. -/
def BackupMan.get_backup_future (reg : Registry) (name : String) : Option BackupFuture :=
  match reg with
  | [] => none
  | (n, f) :: rest => if n = name then some f else BackupMan.get_backup_future rest name

/-- Modelled from the spec: `BackupMan.set_backup` (the `BackupMan` module is
not under `src/`); section 4.1: `register(name, handle)` inserts or
overwrites the entry for `name`, with no uniqueness enforcement. -/
def BackupMan.set_backup (reg : Registry) (name : String) (f : BackupFuture) : Registry :=
  (name, f) :: reg.filter (fun p => p.1 ≠ name)

/-- Modelled from the spec: `BackupMan.remove_backup` (the `BackupMan` module
is not under `src/`); section 4.1: `remove(name)` deletes the entry if
present, no error if absent. -/
def BackupMan.remove_backup (reg : Registry) (name : String) : Registry :=
  reg.filter (fun p => p.1 ≠ name)

/-- Modelled from the spec: `BackupMan.cleanup_all_backups` (the `BackupMan`
module is not under `src/`); section 4.1: `clear_all()` removes every entry. -/
def BackupMan.cleanup_all_backups (_reg : Registry) : Registry := []

/-- Embedding of `handle_backup_status` (server.py lines 217 to 228). The
Python guard `if backup_future and asyncio.isfuture(backup_future)` is split
into the registry lookup and the `isAsyncioFuture` test. In the first branch
(`done and not cancelled`) the source calls `backup_future.result()`, which
re-raises the captured exception when the computation failed; the `Except`
result type records that possibility. -/
def handle_backup_status (reg : Registry) (backup_name : String) :
    Except Exn (Option StatusType × Option Nat) :=
  match BackupMan.get_backup_future reg backup_name with
  | some backup_future =>
    if backup_future.isAsyncioFuture then
      if backup_future.done && !backup_future.cancelled then
        match backup_future.outcome with
        | Except.ok result => Except.ok (some StatusType.SUCCESS, some result)
        | Except.error e => Except.error e
      else if !backup_future.done && !backup_future.cancelled then
        Except.ok (some StatusType.IN_PROGRESS, none)
      else
        Except.ok (some StatusType.FAILED, none)
    else
      Except.ok (none, none)
  | none => Except.ok (none, none)

/-- Embedding of `handle_backup_removal` (server.py lines 231 to 232). -/
def handle_backup_removal (reg : Registry) (backup_name : String) : Registry :=
  BackupMan.remove_backup reg backup_name

/-- Embedding of `handle_backup_removal_all` (server.py lines 235 to 236). -/
def handle_backup_removal_all (reg : Registry) : Registry :=
  BackupMan.cleanup_all_backups reg

/-- The gRPC status codes the handlers set on the servicer context. -/
inductive StatusCode where
  | INTERNAL
  | NOT_FOUND
  deriving DecidableEq, Repr

/-- The observable effect of the handler on the gRPC servicer context:
`set_code` / `set_details` calls, absent when the handler never errored. -/
structure GrpcContext where
  code : Option StatusCode := none
  details : Option String := none
  deriving DecidableEq, Repr

/-- The protobuf `BackupRequest.Mode` enum. -/
inductive RequestMode where
  | FULL
  | DIFFERENTIAL
  deriving DecidableEq, Repr

/-- The protobuf `BackupRequest` message. -/
structure BackupRequest where
  name : String
  mode : RequestMode
  deriving DecidableEq, Repr

/-- The protobuf `BackupResponse` message; `none` status models the proto
field never having been assigned. -/
structure BackupResponse where
  backupName : String := ""
  status : Option StatusType := none
  deriving DecidableEq, Repr

/-- server.py line 40. -/
def BACKUP_MODE_DIFFERENTIAL : String := "differential"

/-- server.py line 41. -/
def BACKUP_MODE_FULL : String := "full"

/-- The mode-selection prelude of `Backup` (lines 106 to 108): default
differential, switched to full when the request says FULL. -/
def modeString (m : RequestMode) : String :=
  if m = RequestMode.FULL then BACKUP_MODE_FULL else BACKUP_MODE_DIFFERENTIAL

/-- Observable actions a handler performs, used to state ordering and
blocking facts about `Backup`. `executorShutdownWait` is the implicit
`executor.shutdown(wait := True)` performed when the
`with ThreadPoolExecutor(...)` block is exited, which joins the submitted
job. -/
inductive ServerAction where
  | logInfo (msg : String)
  | logException (msg : String)
  | submitHandleBackup (name : String) (mode : String)
  | setBackup (name : String)
  | executorShutdownWait (name : String)
  deriving DecidableEq, Repr

/-- Everything `MedusaService.Backup` produces: the response message, the
registry after the call, the context effects, and the action trace in
program order. -/
structure BackupCallResult where
  resp : BackupResponse
  registry : Registry
  context : GrpcContext
  trace : List ServerAction
  deriving Repr

/-- Embedding of `MedusaService.Backup` (server.py lines 102 to 125).

`submitError = some e` means the body of the `try` block raised `e` (from
`executor.submit` or `BackupMan.set_backup`); `jobResult` is the eventual
outcome of the submitted `backup_node.handle_backup` call (the backup
algorithm is an external collaborator, not under `src/`).

Exiting the `with ThreadPoolExecutor(...)` block calls
`executor.shutdown(wait = True)`, which joins the submitted job before the
handler proceeds to set `resp.status`; the registered future is therefore
already completed (`done = true`, `cancelled = false`, its `outcome` being
the finished job result) by the time the handler returns. That future is a
`concurrent.futures` future, for which `asyncio.isfuture` is `false`.
`resp.backupName` is assigned at the top of the `try` block, before any
raise point, so it carries the request name on both paths. The handler is a
total function: an exception raised inside the `try` is consumed by the
`except` branch and never re-raised to the transport layer. -/
def MedusaService.Backup (registry : Registry) (request : BackupRequest)
    (submitError : Option Exn) (jobResult : Except Exn Nat) : BackupCallResult :=
  let mode := modeString request.mode
  match submitError with
  | none =>
    let backup_future : BackupFuture :=
      { isAsyncioFuture := false, done := true, cancelled := false, outcome := jobResult }
    { resp := { backupName := request.name, status := some StatusType.IN_PROGRESS }
      registry := BackupMan.set_backup registry request.name backup_future
      context := {}
      trace := [ServerAction.logInfo ("Performing backup " ++ request.name),
                ServerAction.submitHandleBackup request.name mode,
                ServerAction.setBackup request.name,
                ServerAction.executorShutdownWait request.name,
                ServerAction.logInfo ("Backup " ++ request.name ++ " is in progress")] }
  | some e =>
    { resp := { backupName := request.name, status := some StatusType.FAILED }
      registry := registry
      context := { code := some StatusCode.INTERNAL
                   details := some ("failed to create backups: " ++ e.message) }
      trace := [ServerAction.logInfo ("Performing backup " ++ request.name),
                ServerAction.logException "backup failed"] }

/-- One node entry of a durable record token map; any sub-field may be
absent. -/
structure TokenmapEntry where
  dc : Option String
  rack : Option String
  tokens : Option (List Int)
  deriving DecidableEq, Repr

/-- Modelled from the spec: a durable Cluster Backup Record as surfaced by
the storage collaborator (the storage module is not under `src/`); section 3:
name, nullable start and finish timestamps, a token map from node identifier
to optional datacenter / rack / token set, and the derived complete,
incomplete and missing node sets (node fqdns), read-only data from the point
of view of this core. -/
structure ClusterBackup where
  name : String
  started : Option Int
  finished : Option Int
  tokenmap : List (String × TokenmapEntry)
  complete_nodes : List String
  incomplete_nodes : List String
  missing_nodes : List String
  deriving DecidableEq, Repr

/-- One row of the protobuf `BackupNode` message. -/
structure BackupNode where
  host : String
  datacenter : String
  rack : String
  tokens : List Int
  deriving DecidableEq, Repr

/-- The protobuf `BackupSummary` message; `none` status models the proto
field never having been assigned. -/
structure BackupSummary where
  backupName : String
  startTime : Int
  finishTime : Int
  status : Option StatusType
  totalNodes : Nat
  finishedNodes : Nat
  nodes : List BackupNode
  deriving DecidableEq, Repr

/-- Embedding of the tokenmap-row construction inside the `GetBackups` loop
(server.py lines 183 to 191): datacenter and rack default to the empty
string when the sub-field is absent, the token list to the empty list. -/
def summarizeNode (node : String × TokenmapEntry) : BackupNode :=
  { host := node.1
    datacenter := match node.2.dc with | some d => d | none => ""
    rack := match node.2.rack with | some r => r | none => ""
    tokens := match node.2.tokens with | some ts => ts | none => [] }

/-- Embedding of one iteration of the `GetBackups` loop body (server.py
lines 163 to 193), as a function of the record and the rolling
`last_status`; returns the built summary and the updated `last_status`.
When the record is unfinished the summary is marked `IN_PROGRESS` and the
flag is set; when it is finished the summary is marked `SUCCESS` only if
the flag is not `IN_PROGRESS`, and otherwise its status field is never
assigned. -/
def summarize (backup : ClusterBackup) (last_status : StatusType) :
    BackupSummary × StatusType :=
  let startTime : Int := match backup.started with | none => 0 | some t => t
  let fin : Int × Option StatusType × StatusType :=
    match backup.finished with
    | none => (0, some StatusType.IN_PROGRESS, StatusType.IN_PROGRESS)
    | some t =>
      (t, if last_status ≠ StatusType.IN_PROGRESS then some StatusType.SUCCESS else none,
       last_status)
  ({ backupName := backup.name
     startTime := startTime
     finishTime := fin.1
     status := fin.2.1
     totalNodes := backup.tokenmap.length
     finishedNodes := backup.complete_nodes.length
     nodes := backup.tokenmap.map summarizeNode },
   fin.2.2)

/-- What `MedusaService.GetBackups` produces: the (possibly partial) list of
summaries held by the returned response message, and the context effects. -/
structure GetBackupsCallResult where
  backups : List BackupSummary
  context : GrpcContext
  deriving Repr

/-- The context effect of the `except` branch of `GetBackups` (server.py
lines 196 to 198). -/
def getBackupsInternalError (e : Exn) : GrpcContext :=
  { code := some StatusCode.INTERNAL
    details := some ("failed to get backups: " ++ e.message) }

/-- The `GetBackups` loop over the record stream (server.py lines 162 to
195). An `.error` entry at position k of the stream models an exception
raised while listing or summarizing the k-th record, after the first k
summaries were appended; the `except` branch then sets INTERNAL on the
context and returns the same `response` object, which still holds the
summaries accumulated so far. -/
def getBackupsLoop :
    List (Except Exn ClusterBackup) → StatusType → List BackupSummary → GetBackupsCallResult
  | [], _, acc => { backups := acc, context := {} }
  | Except.error e :: _, _, acc => { backups := acc, context := getBackupsInternalError e }
  | Except.ok backup :: rest, last_status, acc =>
    let p := summarize backup last_status
    getBackupsLoop rest p.2 (acc ++ [p.1])

/-- Embedding of `MedusaService.GetBackups` (server.py lines 157 to 199).
The input stream is the sequence of cluster backup records produced by
`get_backups(self.config, True)` (the listing module is not under `src/`),
interleaved with the possibility of an exception at any point, as described
on `getBackupsLoop`; the rolling `last_status` is seeded to `SUCCESS` at
line 159. -/
def MedusaService.GetBackups (records : List (Except Exn ClusterBackup)) :
    GetBackupsCallResult :=
  getBackupsLoop records StatusType.SUCCESS []

/-- Summaries produced from a stream of successfully listed records,
threading the rolling flag; used to describe the partial list `GetBackups`
has built when a later record fails. -/
def summarizeFrom : StatusType → List ClusterBackup → List BackupSummary
  | _, [] => []
  | last_status, b :: rest =>
    let p := summarize b last_status
    p.1 :: summarizeFrom p.2 rest

/-- The protobuf `BackupStatusResponse` message with its proto default
values; `none` status models the enum field never having been assigned. -/
structure BackupStatusResponse where
  startTime : String := ""
  finishTime : String := ""
  finishedNodes : List String := []
  unfinishedNodes : List String := []
  missingNodes : List String := []
  status : Option StatusType := none
  deriving DecidableEq, Repr

/-- Embedding of `datetime.fromtimestamp(t).strftime(TIMESTAMP_FORMAT)`.
The calendar rendering itself is abstracted as `toString` (no claim depends
on the rendered text); what matters is that `datetime.fromtimestamp(None)`
raises a `TypeError`, which is not a `KeyError`. -/
def fromtimestampFormat : Option Int → Except Exn String
  | none => Except.error (Exn.error "TypeError: an integer is required, got NoneType")
  | some t => Except.ok (toString t)

/-- Embedding of `MedusaService.BackupStatus` (server.py lines 127 to 155).

`getRecord` is the result of `self.storage.get_cluster_backup(request.backupName)`
(the storage collaborator, not under `src/`): `.ok` the record,
`.error (Exn.keyError m)` the KeyError it raises for a missing record, and
`.error (Exn.error m)` any other storage fault. The `try` body runs, in
source order: the record fetch, the registry status resolution (which may
itself re-raise a captured job exception, see `handle_backup_status`), the
`startTime` formatting (a `TypeError` when the record has no start
timestamp), the node lists, the `finishTime` formatting (Python truthiness:
an absent or zero finish timestamp yields the empty string), and the
status mapping written as three independent `if` statements. The handler
catches only `KeyError`, returning the response as built so far with a
NOT_FOUND context; every other exception escapes the handler, which the
`.error` result of this function represents. All raise points precede the
first field assignment, so the response returned on the caught path is the
default-constructed one. -/
def MedusaService.BackupStatus (registry : Registry) (getRecord : Except Exn ClusterBackup)
    (backupName : String) : Except Exn (BackupStatusResponse × GrpcContext) :=
  let response : BackupStatusResponse := {}
  let body : Except Exn (BackupStatusResponse × GrpcContext) := do
    let backup ← getRecord
    let sres ← handle_backup_status registry backupName
    let startTime ← fromtimestampFormat backup.started
    let finishTime ←
      match backup.finished with
      | some t => if t ≠ 0 then fromtimestampFormat (some t) else Except.ok ""
      | none => Except.ok ""
    let status : Option StatusType :=
      if sres.1 = some StatusType.IN_PROGRESS then some StatusType.IN_PROGRESS
      else if sres.1 = some StatusType.FAILED then some StatusType.FAILED
      else if sres.1 = some StatusType.SUCCESS then some StatusType.SUCCESS
      else none
    Except.ok
      ({ startTime := startTime
         finishTime := finishTime
         finishedNodes := backup.complete_nodes
         unfinishedNodes := backup.incomplete_nodes
         missingNodes := backup.missing_nodes
         status := status },
       {})
  match body with
  | Except.error (Exn.keyError _) =>
    Except.ok (response,
      { code := some StatusCode.NOT_FOUND
        details := some ("backup <" ++ backupName ++ "> does not exist") })
  | other => other

/-- What `MedusaService.DeleteBackup` produces: the registry after the call
and the context effects (the response message itself is empty). -/
structure DeleteBackupCallResult where
  registry : Registry
  context : GrpcContext
  deriving Repr

/-- Embedding of `MedusaService.DeleteBackup` (server.py lines 201 to 212).
`purgeResult` is the outcome of the `delete_backup(self.config,
[request.name], True)` collaborator call (the purge module is not under
`src/`). On success the handler then removes the registry entry via
`handle_backup_removal`; when the purge raises, the `except` branch sets
INTERNAL and the removal never runs, leaving the registry untouched. The
handler always returns the empty `DeleteBackupResponse`. -/
def MedusaService.DeleteBackup (registry : Registry) (purgeResult : Except Exn Unit)
    (name : String) : DeleteBackupCallResult :=
  match purgeResult with
  | Except.ok _ => { registry := handle_backup_removal registry name, context := {} }
  | Except.error e =>
    { registry := registry
      context := { code := some StatusCode.INTERNAL
                   details := some ("deleting backups failed: " ++ e.message) } }

/-- A token-map entry with every sub-field present, for concrete runs. -/
def entryPlain : TokenmapEntry :=
  { dc := some "dc1", rack := some "rack1", tokens := some [1, 2] }

/-- Concrete finished record A. -/
def recA : ClusterBackup :=
  { name := "A", started := some 10, finished := some 20
    tokenmap := [("nodeA", entryPlain)]
    complete_nodes := ["nodeA"], incomplete_nodes := [], missing_nodes := [] }

/-- Concrete unfinished record B. -/
def recB : ClusterBackup :=
  { name := "B", started := some 30, finished := none
    tokenmap := [("nodeB", entryPlain)]
    complete_nodes := [], incomplete_nodes := ["nodeB"], missing_nodes := [] }

/-- Concrete finished record C. -/
def recC : ClusterBackup :=
  { name := "C", started := some 40, finished := some 50
    tokenmap := [("nodeC", entryPlain)]
    complete_nodes := ["nodeC"], incomplete_nodes := [], missing_nodes := [] }

/-- A registered asyncio future whose computation raised: done, not
cancelled, with the exception captured in its outcome. -/
def abnormalFuture : BackupFuture :=
  { isAsyncioFuture := true, done := true, cancelled := false
    outcome := Except.error (Exn.error "backup job raised") }

/-- Looking up a name right after registering it under that name yields the
registered handle. -/
theorem get_backup_future_set_same (reg : Registry) (name : String) (f : BackupFuture) :
    BackupMan.get_backup_future (BackupMan.set_backup reg name f) name = some f := by
  simp [BackupMan.set_backup, BackupMan.get_backup_future]

/-- Looking up a name right after removing it yields absent. -/
theorem get_backup_future_remove_same (reg : Registry) (name : String) :
    BackupMan.get_backup_future (BackupMan.remove_backup reg name) name = none := by
  induction reg with
  | nil => rfl
  | cons p rest ih =>
    unfold BackupMan.remove_backup at *
    by_cases h : p.1 = name
    · simpa [List.filter_cons, h] using ih
    · simpa [List.filter_cons, h, BackupMan.get_backup_future] using ih

/-- Running the `GetBackups` loop over a stream whose first failure comes
after a prefix of well-listed records yields the already-accumulated
summaries followed by the summaries of that prefix, with the INTERNAL
context of the `except` branch. -/
theorem getBackupsLoop_error_after_front (pre : List ClusterBackup) (e : Exn)
    (rest : List (Except Exn ClusterBackup)) :
    ∀ (last_status : StatusType) (acc : List BackupSummary),
      getBackupsLoop (pre.map Except.ok ++ Except.error e :: rest) last_status acc =
        { backups := acc ++ summarizeFrom last_status pre
          context := getBackupsInternalError e } := by
  induction pre with
  | nil =>
    intro last_status acc
    simp [getBackupsLoop, summarizeFrom]
  | cons b bs ih =>
    intro last_status acc
    simp only [List.map_cons, List.cons_append, getBackupsLoop, summarizeFrom, List.append_eq]
    rw [ih]
    simp

/-- C1: evaluation of the code at the failing input. After a successful
`Backup` for the name "snap1", the name is present in the Job Registry, yet
`handle_backup_status` answers `(None, None)` — the not-found answer, per
the comment on the function — because the registered handle is a
`concurrent.futures` future, for which `asyncio.isfuture` is false; the
claimed IN_PROGRESS / SUCCESS / FAILED resolution never fires for a name
registered by `Backup`. -/
theorem registered_backup_resolves_to_not_found :
    (BackupMan.get_backup_future
      (MedusaService.Backup [] { name := "snap1", mode := RequestMode.FULL } none
        (Except.ok 0)).registry "snap1").isSome = true
    ∧ handle_backup_status
        (MedusaService.Backup [] { name := "snap1", mode := RequestMode.FULL } none
          (Except.ok 0)).registry "snap1" = Except.ok (none, none) := by
  exact ⟨rfl, rfl⟩

/-- C2: evaluation of the code at the failing input. For the Backup request
named "snap1" the success-path action trace contains the
`executor.shutdown(wait = True)` join performed when the
`with ThreadPoolExecutor(...)` block exits — the handler waits for the
submitted job before returning — and accordingly the future it leaves in
the registry is already completed (`done = true`) by the time the handler
returns. -/
theorem backup_handler_joins_job_before_returning :
    ServerAction.executorShutdownWait "snap1" ∈
      (MedusaService.Backup [] { name := "snap1", mode := RequestMode.FULL } none
        (Except.ok 0)).trace
    ∧ BackupMan.get_backup_future
        (MedusaService.Backup [] { name := "snap1", mode := RequestMode.FULL } none
          (Except.ok 0)).registry "snap1" =
      some { isAsyncioFuture := false, done := true, cancelled := false
             outcome := Except.ok 0 } := by
  refine ⟨?_, rfl⟩
  simp [MedusaService.Backup]

/-- C3 counterexample: with the first record listed successfully and the
second raising, `GetBackups` signals INTERNAL, but the returned response
still carries the summary built for the first record — the partially-built
list is not discarded. -/
theorem getBackups_keeps_partial_list_on_failure :
    (MedusaService.GetBackups
        [Except.ok recA, Except.error (Exn.error "listing failed")]).context.code
      = some StatusCode.INTERNAL
    ∧ (MedusaService.GetBackups
        [Except.ok recA, Except.error (Exn.error "listing failed")]).backups
      = [(summarize recA StatusType.SUCCESS).1]
    ∧ (MedusaService.GetBackups
        [Except.ok recA, Except.error (Exn.error "listing failed")]).backups ≠ [] := by
  refine ⟨rfl, rfl, ?_⟩
  intro h
  exact List.cons_ne_nil _ _ h

/-- C3 amended: any failure while listing or summarizing makes `GetBackups`
signal an internal error, and the returned response carries exactly the
summaries of the records processed before the failure — they are retained
in the response, not discarded; only the error code marks the call failed. -/
theorem getBackups_failure_keeps_built_summaries (pre : List ClusterBackup)
    (e : Exn) (rest : List (Except Exn ClusterBackup)) :
    (MedusaService.GetBackups (pre.map Except.ok ++ Except.error e :: rest)).context.code
      = some StatusCode.INTERNAL
    ∧ (MedusaService.GetBackups (pre.map Except.ok ++ Except.error e :: rest)).backups
      = summarizeFrom StatusType.SUCCESS pre := by
  have h := getBackupsLoop_error_after_front pre e rest StatusType.SUCCESS []
  rw [MedusaService.GetBackups, h]
  exact ⟨rfl, by simp⟩

/-- Witness for `getBackups_failure_keeps_built_summaries` at the
concrete one-record prefix. -/
theorem getBackups_failure_keeps_built_witness :
    (MedusaService.GetBackups
        [Except.ok recA, Except.error (Exn.error "listing failed")]).backups
      = summarizeFrom StatusType.SUCCESS [recA] :=
  (getBackups_failure_keeps_built_summaries [recA] (Exn.error "listing failed") []).2

/-- C4 counterexample: a registered asyncio-future handle whose computation
raised (done, not cancelled, exception captured in the handle) makes
`handle_backup_status` re-raise the captured exception through
`Future.result()` rather than return FAILED. -/
theorem resolver_propagates_captured_exception :
    handle_backup_status [("b1", abnormalFuture)] "b1"
      = Except.error (Exn.error "backup job raised")
    ∧ handle_backup_status [("b1", abnormalFuture)] "b1"
      ≠ Except.ok (some StatusType.FAILED, none) := by
  refine ⟨rfl, ?_⟩
  intro h
  rw [show handle_backup_status [("b1", abnormalFuture)] "b1"
        = Except.error (Exn.error "backup job raised") from rfl] at h
  exact Except.noConfusion h

/-- C4 amended: a registered handle that is an asyncio future and completed
abnormally (its computation raised, so it is done and not cancelled with the
exception captured inside it) makes the resolver take the completed branch
and re-raise the captured exception via `result()` instead of returning
FAILED; FAILED is returned for cancelled handles. -/
theorem resolver_reraises_on_abnormal_completion (name : String) (f : BackupFuture)
    (e : Exn) (hfut : f.isAsyncioFuture = true) (hdone : f.done = true)
    (hcanc : f.cancelled = false) (hout : f.outcome = Except.error e) :
    handle_backup_status [(name, f)] name = Except.error e := by
  simp [handle_backup_status, BackupMan.get_backup_future, hfut, hdone, hcanc, hout]

/-- Witness for `resolver_reraises_on_abnormal_completion` at the concrete
abnormally-completed future. -/
theorem resolver_reraises_witness :
    handle_backup_status [("b2", abnormalFuture)] "b2"
      = Except.error (Exn.error "backup job raised") :=
  resolver_reraises_on_abnormal_completion "b2" abnormalFuture
    (Exn.error "backup job raised") rfl rfl rfl rfl

/-- C5: when submission succeeds, `Backup` registers the resulting handle in
the Job Registry under the request name before returning, and the response
carries `backupName` equal to the request name and status IN_PROGRESS. -/
theorem backup_registers_handle_and_acks_in_progress (registry : Registry)
    (request : BackupRequest) (submitError : Option Exn) (jobResult : Except Exn Nat)
    (hs : submitError = none) :
    (BackupMan.get_backup_future
        (MedusaService.Backup registry request submitError jobResult).registry
        request.name).isSome = true
    ∧ (MedusaService.Backup registry request submitError jobResult).resp.backupName
        = request.name
    ∧ (MedusaService.Backup registry request submitError jobResult).resp.status
        = some StatusType.IN_PROGRESS := by
  subst hs
  refine ⟨?_, rfl, rfl⟩
  simp [MedusaService.Backup, get_backup_future_set_same]

/-- Witness for `backup_registers_handle_and_acks_in_progress` at a concrete
request. -/
theorem backup_registers_witness :
    (BackupMan.get_backup_future
        (MedusaService.Backup [] { name := "snap2", mode := RequestMode.DIFFERENTIAL } none
          (Except.ok 0)).registry "snap2").isSome = true :=
  (backup_registers_handle_and_acks_in_progress []
    { name := "snap2", mode := RequestMode.DIFFERENTIAL } none (Except.ok 0) rfl).1

/-- C6: the rollup status is order-dependent: with the rolling flag seeded
to SUCCESS, an unfinished record is marked IN_PROGRESS and sets the flag; a
finished record is marked SUCCESS only when the flag is not IN_PROGRESS and
the flag is left unchanged; and the concrete run over
[A finished, B unfinished, C finished] yields the statuses
[SUCCESS, IN_PROGRESS, unassigned], C being left without a status. -/
theorem rollup_status_is_order_dependent :
    ((MedusaService.GetBackups [Except.ok recA, Except.ok recB, Except.ok recC]).backups.map
        (fun s => s.status))
      = [some StatusType.SUCCESS, some StatusType.IN_PROGRESS, none]
    ∧ (∀ (last_status : StatusType) (b : ClusterBackup), b.finished = none →
        (summarize b last_status).1.status = some StatusType.IN_PROGRESS
        ∧ (summarize b last_status).2 = StatusType.IN_PROGRESS)
    ∧ (∀ (last_status : StatusType) (b : ClusterBackup) (t : Int), b.finished = some t →
        (summarize b last_status).1.status =
          (if last_status ≠ StatusType.IN_PROGRESS then some StatusType.SUCCESS else none)
        ∧ (summarize b last_status).2 = last_status) := by
  refine ⟨rfl, ?_, ?_⟩
  · intro last_status b hb
    exact ⟨by simp [summarize, hb], by simp [summarize, hb]⟩
  · intro last_status b t hb
    exact ⟨by simp [summarize, hb], by simp [summarize, hb]⟩

/-- Witness for `rollup_status_is_order_dependent`: the unfinished record B
under a SUCCESS flag is marked IN_PROGRESS. -/
theorem rollup_status_witness :
    (summarize recB StatusType.SUCCESS).1.status = some StatusType.IN_PROGRESS :=
  (rollup_status_is_order_dependent.2.1 StatusType.SUCCESS recB rfl).1

/-- C7: the per-record summary field mapping: startTime is 0 without a start
timestamp and the raw timestamp otherwise; an unfinished record gets
finishTime 0 and status IN_PROGRESS; totalNodes is the token-map size and
finishedNodes the complete-node-set size; node rows default datacenter and
rack to the empty string and the token list to the empty list when absent. -/
theorem summary_per_record_field_mapping (b : ClusterBackup) (last_status : StatusType) :
    (b.started = none → (summarize b last_status).1.startTime = 0)
    ∧ (∀ t : Int, b.started = some t → (summarize b last_status).1.startTime = t)
    ∧ (b.finished = none →
        (summarize b last_status).1.finishTime = 0
        ∧ (summarize b last_status).1.status = some StatusType.IN_PROGRESS)
    ∧ (∀ t : Int, b.finished = some t → (summarize b last_status).1.finishTime = t)
    ∧ (summarize b last_status).1.totalNodes = b.tokenmap.length
    ∧ (summarize b last_status).1.finishedNodes = b.complete_nodes.length
    ∧ (summarize b last_status).1.nodes = b.tokenmap.map summarizeNode
    ∧ (∀ (host : String) (entry : TokenmapEntry), entry.dc = none →
        (summarizeNode (host, entry)).datacenter = "")
    ∧ (∀ (host : String) (entry : TokenmapEntry), entry.rack = none →
        (summarizeNode (host, entry)).rack = "")
    ∧ (∀ (host : String) (entry : TokenmapEntry), entry.tokens = none →
        (summarizeNode (host, entry)).tokens = []) := by
  refine ⟨?_, ?_, ?_, ?_, rfl, rfl, rfl, ?_, ?_, ?_⟩
  · intro hb; simp [summarize, hb]
  · intro t hb; simp [summarize, hb]
  · intro hb; exact ⟨by simp [summarize, hb], by simp [summarize, hb]⟩
  · intro t hb; simp [summarize, hb]
  · intro host entry he; simp [summarizeNode, he]
  · intro host entry he; simp [summarizeNode, he]
  · intro host entry he; simp [summarizeNode, he]

/-- Witness for `summary_per_record_field_mapping`: the unfinished record B
gets finishTime 0. -/
theorem summary_field_mapping_witness :
    (summarize recB StatusType.SUCCESS).1.finishTime = 0 :=
  ((summary_per_record_field_mapping recB StatusType.SUCCESS).2.2.1 rfl).1

/-- C8: when the purge collaborator raises, `DeleteBackup` signals INTERNAL
and leaves the Job Registry untouched; when the purge succeeds, the entry
for the name is removed from the registry. -/
theorem deleteBackup_registry_semantics (registry : Registry) (name : String) :
    (∀ e : Exn,
      (MedusaService.DeleteBackup registry (Except.error e) name).registry = registry
      ∧ (MedusaService.DeleteBackup registry (Except.error e) name).context.code
          = some StatusCode.INTERNAL)
    ∧ ((MedusaService.DeleteBackup registry (Except.ok ()) name).registry
          = BackupMan.remove_backup registry name
        ∧ BackupMan.get_backup_future
            (MedusaService.DeleteBackup registry (Except.ok ()) name).registry name
          = none) := by
  refine ⟨fun e => ⟨rfl, rfl⟩, rfl, ?_⟩
  exact get_backup_future_remove_same registry name

/-- Witness for `deleteBackup_registry_semantics` at a concrete registry and
name. -/
theorem deleteBackup_registry_witness :
    (MedusaService.DeleteBackup [("ghost", abnormalFuture)]
        (Except.error (Exn.error "purge failed")) "ghost").registry
      = [("ghost", abnormalFuture)] :=
  ((deleteBackup_registry_semantics [("ghost", abnormalFuture)] "ghost").1
    (Exn.error "purge failed")).1

/-- C9: when the asynchronous submission raises, `Backup` catches the fault:
the response carries FAILED, the context is set to INTERNAL with the failure
message, the exception is logged, and the handler still returns its response
(the embedding is a total function, so the fault is never re-raised to the
transport layer); `backupName` was already assigned, so it still carries the
request name. -/
theorem backup_submission_failure_is_contained (registry : Registry)
    (request : BackupRequest) (submitError : Option Exn) (jobResult : Except Exn Nat)
    (e : Exn) (hs : submitError = some e) :
    (MedusaService.Backup registry request submitError jobResult).resp.status
        = some StatusType.FAILED
    ∧ (MedusaService.Backup registry request submitError jobResult).context.code
        = some StatusCode.INTERNAL
    ∧ (MedusaService.Backup registry request submitError jobResult).context.details
        = some ("failed to create backups: " ++ e.message)
    ∧ ServerAction.logException "backup failed"
        ∈ (MedusaService.Backup registry request submitError jobResult).trace := by
  subst hs
  refine ⟨rfl, rfl, rfl, ?_⟩
  simp [MedusaService.Backup]

/-- Witness for `backup_submission_failure_is_contained` at a concrete
failing submission. -/
theorem backup_submission_failure_witness :
    (MedusaService.Backup [] { name := "snap3", mode := RequestMode.FULL }
        (some (Exn.error "no executor")) (Except.ok 0)).resp.status
      = some StatusType.FAILED :=
  (backup_submission_failure_is_contained [] { name := "snap3", mode := RequestMode.FULL }
    (some (Exn.error "no executor")) (Except.ok 0) (Exn.error "no executor") rfl).1

/-- C10 counterexample: a storage fault that is not the KeyError not-found
condition propagates out of `BackupStatus` unhandled — the handler's only
except clause is for KeyError. -/
theorem backupStatus_propagates_non_keyerror_fault :
    MedusaService.BackupStatus [] (Except.error (Exn.error "storage unavailable")) "b1"
      = Except.error (Exn.error "storage unavailable") := rfl

/-- C10 amended: `BackupStatus` catches exactly the KeyError faults,
translating them to a NOT_FOUND context with the default response; every
other collaborator-raised fault — a non-KeyError storage fault, or the
TypeError raised while formatting the start timestamp of a record that has
none — propagates out of the handler unhandled. -/
theorem backupStatus_catches_only_keyerror (registry : Registry) (name : String)
    (m : String) :
    MedusaService.BackupStatus registry (Except.error (Exn.keyError m)) name
      = Except.ok ({},
          { code := some StatusCode.NOT_FOUND
            details := some ("backup <" ++ name ++ "> does not exist") })
    ∧ MedusaService.BackupStatus registry (Except.error (Exn.error m)) name
      = Except.error (Exn.error m)
    ∧ (∀ b : ClusterBackup, b.started = none →
        MedusaService.BackupStatus [] (Except.ok b) name
          = Except.error (Exn.error "TypeError: an integer is required, got NoneType")) := by
  refine ⟨rfl, rfl, ?_⟩
  intro b hb
  obtain ⟨nm, st, fin, tm, cn, icn, mn⟩ := b
  have h2 : st = none := hb
  subst h2
  rfl

/-- Witness for `backupStatus_catches_only_keyerror` at a concrete missing
record. -/
theorem backupStatus_keyerror_witness :
    MedusaService.BackupStatus [] (Except.error (Exn.keyError "no such key")) "b9"
      = Except.ok ({},
          { code := some StatusCode.NOT_FOUND
            details := some ("backup <" ++ "b9" ++ "> does not exist") }) :=
  (backupStatus_catches_only_keyerror [] "b9" "no such key").1

end Medusa
